import Mathlib

/-!
# Silverfood recipe-analyzer client: a formal model

A shallow embedding, in Lean 4, of the client-side logic of the
Silverfood recipe health analyzer (the web front-end `static/script.js`,
the extension content script `content.js`, the background service worker
`background.js`, and the popup `popup.js`), together with theorems about
input validation, the ingredient/title extraction cascades, the health
score classification thresholds, the error-message classifier, response
normalization, and the badge-update rule.

Strings are manipulated through executable list-of-character functions
mirroring the JavaScript primitives (`trim`, `startsWith`, `includes`),
and JavaScript truthiness of numbers/strings/objects is modelled
explicitly where the code relies on it (`x || default`).
-/

/-! ## JavaScript string and truthiness primitives -/

/-- Whitespace characters recognized by JavaScript `String.prototype.trim`
(restricted to the ASCII whitespace that can appear in the modelled inputs). -/
def jsIsSpace (c : Char) : Bool :=
  c = ' ' || c = '\t' || c = '\n' || c = '\r' || c = '\x0b' || c = '\x0c'

/-- JavaScript `s.trim()`: strip leading and trailing whitespace. -/
def jsTrim (s : String) : String :=
  ⟨((s.toList.dropWhile jsIsSpace).reverse.dropWhile jsIsSpace).reverse⟩

/-- JavaScript `s.startsWith(pre)`. -/
def jsStartsWith (s pre : String) : Bool :=
  List.isPrefixOf pre.toList s.toList

/-- Helper for `jsIncludes`: does `pat` occur as a contiguous sublist of `l`? -/
def jsIncludesAux (pat : List Char) : List Char → Bool
  | [] => pat.isEmpty
  | l@(_ :: rest) => List.isPrefixOf pat l || jsIncludesAux pat rest

/-- JavaScript `s.includes(pat)`: substring containment. -/
def jsIncludes (s pat : String) : Bool :=
  jsIncludesAux pat.toList s.toList

/-- JavaScript `score || d` for a possibly-absent numeric health score:
`undefined`/`null` (modelled as `none`) and `0` are falsy and give the
default `d`; any other number is returned unchanged. -/
def jsOrScore : Option Int → Int → Int
  | none, d => d
  | some v, d => if v = 0 then d else v

/-! ## Input validation in `static/script.js` (`analyzeRecipe`)

`analyzeRecipe` trims the text of the active input, rejects it with
`showError(userMessage, errorTitle)` and an early `return` when validation
fails, and otherwise issues the HTTP request with the trimmed input.  An
outcome is either `rejected userMessage errorTitle` (no HTTP request is
issued: the function returns before reaching `fetch`) or
`accepted payload` (the `fetch` call is made with `payload`). -/

inductive InputOutcome
  | rejected (userMessage errorTitle : String)
  | accepted (payload : String)
  deriving DecidableEq, Repr

/-- The too-short validation message shown by `analyzeRecipe` (script.js). -/
def textTooShortMessage : String :=
  "De recept tekst is te kort. Voer meer ingrediënten of recept informatie in."

/-- The invalid-URL validation message shown by `analyzeRecipe` (script.js). -/
def invalidUrlMessage : String :=
  "De URL moet beginnen met http:// of https://"

/-- The text branch of `analyzeRecipe` (script.js, both copies of the
function are identical here): trim the textarea value, reject empty text
with "Geen tekst ingevuld", reject text of trimmed length `< 20` with
"Tekst te kort", otherwise POST the trimmed text to `/analyse-text`. -/
def validateRecipeText (raw : String) : InputOutcome :=
  let inputData := jsTrim raw
  if inputData = "" then
    .rejected "Voer eerst recept tekst in" "Geen tekst ingevuld"
  else if inputData.length < 20 then
    .rejected textTooShortMessage "Tekst te kort"
  else
    .accepted inputData

/-- The URL branch of `analyzeRecipe` (script.js): trim the URL input,
reject an empty URL with "Geen URL ingevuld", reject a URL that starts
with neither `http://` nor `https://` with "Ongeldige URL", otherwise GET
`/analyse?url=...` with the trimmed URL. -/
def validateRecipeUrl (raw : String) : InputOutcome :=
  let inputData := jsTrim raw
  if inputData = "" then
    .rejected "Voer eerst een recept URL in" "Geen URL ingevuld"
  else if !jsStartsWith inputData "http://" && !jsStartsWith inputData "https://" then
    .rejected invalidUrlMessage "Ongeldige URL"
  else
    .accepted inputData

/-- `analyzeCurrentPage` in `popup.js`: the request to `/chrome/analyze`
is issued only when the active tab's URL is present, non-empty and starts
with `http://` or `https://`; otherwise the popup throws
"Deze pagina wordt niet ondersteund" before any fetch. -/
def popupAllowsAnalyze : Option String → Bool
  | none => false
  | some url =>
      url ≠ "" && (jsStartsWith url "http://" || jsStartsWith url "https://")

/-! ## The content script's extraction cascade (`content.js`)

A page is modelled by what the DOM query API returns on it:
`queryAll sel` is the list of `textContent` strings of the elements
matched by `document.querySelectorAll(sel)`, in document order
(`document.querySelector(sel)` is its head), and `title` is
`document.title`. -/

structure DomDoc where
  queryAll : String → List String
  title : String

/-- The fixed ordered selector cascade of `extractIngredients` (content.js). -/
def ingredientSelectors : List String :=
  [".recipe-ingredient",
   ".ingredient",
   ".ingredients li",
   "[data-testid=\"ingredient\"]",
   "[data-ingredient]",
   ".ingredient-item",
   ".recipe-ingredients-list li",
   "ul[data-testid=\"ingredients\"] li",
   ".ingredients-section li",
   ".ah-ingredient",
   ".allerhande-ingredient"]

/-- The per-selector candidate filter of `extractIngredients`:
`.map(el => el.textContent.trim()).filter(text => text.length > 0 && text.length < 200)`. -/
def surviving (texts : List String) : List String :=
  (texts.map jsTrim).filter (fun text => text.length > 0 && text.length < 200)

/-- The selector loop of `extractIngredients` (content.js).  For each
selector in order: if `querySelectorAll` matches any element, the
filtered candidate list is computed and, when non-empty, the loop breaks
and returns it; in every other case the loop moves on.  (In the source
the `ingredients` variable is reassigned on each non-breaking iteration
with a filtered list that is necessarily empty, and the function finally
returns that variable, so falling off the end returns `[]`.) -/
def extractIngredientsGo (doc : DomDoc) : List String → List String
  | [] => []
  | sel :: rest =>
      let elements := doc.queryAll sel
      if 0 < elements.length then
        let ingredients := surviving elements
        if 0 < ingredients.length then ingredients
        else extractIngredientsGo doc rest
      else extractIngredientsGo doc rest

/-- `extractIngredients` (content.js): run the cascade over the fixed
selector list. -/
def extractIngredients (doc : DomDoc) : List String :=
  extractIngredientsGo doc ingredientSelectors

/-- The fixed ordered selector cascade of `extractTitle` (content.js). -/
def titleSelectors : List String :=
  ["h1",
   ".recipe-title",
   "[data-testid=\"recipe-title\"]",
   ".title",
   "h1.recipe-header-title"]

/-- The selector loop of `extractTitle` (content.js): for each selector in
order, take the first matched element (`querySelector`); if it exists and
its trimmed text is non-empty, return that trimmed text; otherwise try the
next selector.  When no selector yields a non-empty text, the source
returns `document.title || 'Recept'`. -/
def extractTitleGo (doc : DomDoc) : List String → String
  | [] => if doc.title = "" then "Recept" else doc.title
  | sel :: rest =>
      match (doc.queryAll sel).head? with
      | some element =>
          if jsTrim element ≠ "" then jsTrim element
          else extractTitleGo doc rest
      | none => extractTitleGo doc rest

/-- `extractTitle` (content.js). -/
def extractTitle (doc : DomDoc) : String :=
  extractTitleGo doc titleSelectors

/-- The recipe payload assembled by `extractRecipeFromPage` (content.js),
restricted to the fields the extraction logic computes. -/
structure RecipeData where
  title : String
  ingredients : List String
  deriving DecidableEq, Repr

/-- The `sendResponse` payload of `handleExtractRecipe` (content.js). -/
structure ExtractResponse where
  success : Bool
  data : Option RecipeData
  error : Option String
  deriving DecidableEq, Repr

/-- `extractRecipeFromPage` (content.js): assemble title and ingredients.
It performs no emptiness check and throws nothing. -/
def extractRecipeFromPage (doc : DomDoc) : RecipeData :=
  { title := extractTitle doc, ingredients := extractIngredients doc }

/-- `handleExtractRecipe` (content.js): extraction is wrapped in
`try/catch`, but `extractRecipeFromPage` has no throwing path, so the
response is always `{success: true, data: recipeData}`. -/
def handleExtractRecipe (doc : DomDoc) : ExtractResponse :=
  { success := true, data := some (extractRecipeFromPage doc), error := none }

/-- A page on which every selector matches nothing and `document.title`
is empty. -/
def emptyPage : DomDoc :=
  { queryAll := fun _ => [], title := "" }

/-! ## Health score classification in `static/script.js`

Three independent places classify an ingredient by its health score.
The score read from the response may be absent, so it is an
`Option Int`; every site first applies the JavaScript default
`ingredient.health_score || 5` except for the badge color, which reads
the raw field. -/

/-- `displayResults` (script.js): `healthScore = ingredient.health_score || 5;
healthClass = healthScore >= 7 ? 'healthy' : healthScore >= 5 ? 'neutral' : 'unhealthy'`. -/
def displayResultsHealthClass (health_score : Option Int) : String :=
  let healthScore := jsOrScore health_score 5
  if healthScore ≥ 7 then "healthy"
  else if healthScore ≥ 5 then "neutral"
  else "unhealthy"

/-- `displayAllIngredients` (script.js): the item's CSS class, computed from
`safeIngredient.health_score = ingredient?.health_score || 5` with
thresholds `>= 7` healthy, `>= 4` neutral, otherwise unhealthy. -/
def allIngredientsItemClass (health_score : Option Int) : String :=
  let s := jsOrScore health_score 5
  if s ≥ 7 then "healthy"
  else if s ≥ 4 then "neutral"
  else "unhealthy"

/-- `displayAllIngredients` (script.js): the badge color, computed from the
raw `ingredient.health_score` with thresholds `>= 7` green (`#28a745`),
`>= 4` yellow (`#ffc107`), otherwise red (`#dc3545`).  An absent score
fails both numeric comparisons in JavaScript, giving red. -/
def allIngredientsBadgeColor : Option Int → String
  | none => "#dc3545"
  | some s =>
      if s ≥ 7 then "#28a745"
      else if s ≥ 4 then "#ffc107"
      else "#dc3545"

/-- The classification the specification prescribes for every consumer of
`health_score`, written from the spec's words: `≥7` "healthy", `4–6`
"neutral", `<4` "unhealthy".  Used to compare the code's classifiers
against the specified thresholds. -/
def specHealthClass (s : Int) : String :=
  if s ≥ 7 then "healthy"
  else if 4 ≤ s ∧ s ≤ 6 then "neutral"
  else "unhealthy"

/-- The health score a displayed ingredient is rendered and classified
with (`ingredient.health_score || 5`, script.js lines used by both
`displayResults` and `displayAllIngredients`). -/
def displayedHealthScore (health_score : Option Int) : Int :=
  jsOrScore health_score 5

/-- `displayAllIngredients` renders one item per ingredient of its input
list, in order, classifying each independently; no score value can abort
the loop. -/
def displayAllIngredientsClasses (scores : List (Option Int)) : List String :=
  scores.map allIngredientsItemClass

/-! ## The error classifier of `analyzeRecipe` (`static/script.js`)

When the analysis fails, the `catch` block maps `error.message` to a user
message and an error title by substring tests in a fixed order. -/

/-- The user message / error title pair shown via `showError`. -/
structure UserError where
  userMessage : String
  errorTitle : String
  deriving DecidableEq, Repr

def connectionErrorMessage : String :=
  "Geen internetverbinding. Controleer uw verbinding en probeer opnieuw."

def unsupportedSiteMessage : String :=
  "Deze website wordt niet ondersteund. Probeer een recept van AH Allerhande of Jumbo."

def rateLimitMessage : String :=
  "Te veel verzoeken. Wacht een minuut en probeer opnieuw."

def noIngredientsFoundMessage : String :=
  "Geen ingrediënten gevonden. Dit kan komen door:\\n• Website blokkeert automatische toegang\\n• Pagina laadt te langzaam\\n• URL is geen receptpagina\\n\\nProbeer een andere recept-URL."

def temporarilyUnavailableMessage : String :=
  "De analyseservice is tijdelijk niet beschikbaar. Dit kan komen door serveronderhoud. Probeer het over een paar minuten opnieuw."

def blockedAccessMessage : String :=
  "Deze website blokkeert automatische toegang. Probeer een andere recept-URL van een ondersteunde website."

def defaultErrorMessage : String :=
  "Er is een onverwachte fout opgetreden. Probeer het later opnieuw."

/-- The `catch` block of `analyzeRecipe` (script.js): ordered substring
tests on the error message.  The final `else if (errorMessage)` shows a
non-empty unmatched message verbatim; an empty message keeps the preset
default message.  The title is "Fout bij analyseren" unless a branch
overrides it. -/
def classifyAnalysisError (errorMessage : String) : UserError :=
  if jsIncludes errorMessage "Failed to fetch" || jsIncludes errorMessage "NetworkError" then
    ⟨connectionErrorMessage, "Verbindingsfout"⟩
  else if jsIncludes errorMessage "niet ondersteund" then
    ⟨unsupportedSiteMessage, "Website niet ondersteund"⟩
  else if jsIncludes errorMessage "429" then
    ⟨rateLimitMessage, "Te druk"⟩
  else if jsIncludes errorMessage "geen ingrediënten" || jsIncludes errorMessage "Geen ingrediënten" then
    ⟨noIngredientsFoundMessage, "Geen ingrediënten gevonden"⟩
  else if jsIncludes errorMessage "tijdelijk niet beschikbaar" then
    ⟨temporarilyUnavailableMessage, "Service tijdelijk niet beschikbaar"⟩
  else if jsIncludes errorMessage "geblokkeerd" || jsIncludes errorMessage "403" then
    ⟨blockedAccessMessage, "Website blokkeert toegang"⟩
  else if errorMessage ≠ "" then
    ⟨errorMessage, "Fout bij analyseren"⟩
  else
    ⟨defaultErrorMessage, "Fout bij analyseren"⟩

/-! ## Response normalization in `analyzeRecipe` (`static/script.js`)

JSON values as the front-end sees them after `response.json()`.  A
missing object property is modelled as `null`: in all positions used
here, JavaScript `undefined` and `null` behave identically (both falsy,
neither an array, `typeof` not `'object'` only for `undefined`, which is
never the whole response body since `response.json()` cannot produce it). -/

inductive Json
  | null
  | bool (b : Bool)
  | num (n : Int)
  | str (s : String)
  | arr (elems : List Json)
  | obj (fields : List (String × Json))

/-- JavaScript truthiness of a JSON value. -/
def Json.truthy : Json → Bool
  | .null => false
  | .bool b => b
  | .num n => n ≠ 0
  | .str s => s ≠ ""
  | .arr _ => true
  | .obj _ => true

/-- JavaScript `typeof v === 'object'`: true for objects, arrays and
`null`. -/
def Json.typeofIsObject : Json → Bool
  | .null => true
  | .arr _ => true
  | .obj _ => true
  | _ => false

/-- `Array.isArray`. -/
def Json.isArray : Json → Bool
  | .arr _ => true
  | _ => false

/-- Is the value a plain JSON object (not an array, not `null`)? -/
def Json.isObject : Json → Bool
  | .obj _ => true
  | _ => false

/-- JavaScript property access `data.k` (missing property ⇒ `undefined`,
modelled as `null`; access on a non-object yields no field here). -/
def Json.getField : Json → String → Json
  | .obj fields, k => (fields.lookup k).getD .null
  | _, _ => .null

/-- The value `analyzeRecipe` passes to `displayResults`: the parsed
response together with the five overridden properties of the `safeData`
object literal. -/
structure SafeData where
  raw : Json
  health_explanation : Json
  all_ingredients : Json
  swaps : Json
  total_nutrition : Json
  health_goals_scores : Json

/-- The normalization step of `analyzeRecipe` (script.js): reject the
parsed response when `!data || typeof data !== 'object'`; otherwise build
`safeData` with `Array.isArray(f) ? f : []` for the three list fields and
`f || {}` for `total_nutrition` and `health_goals_scores`. -/
def normalizeAnalysisResponse (data : Json) : Except String SafeData :=
  if !data.truthy || !data.typeofIsObject then
    .error "Ongeldige response structuur van server."
  else
    .ok
      { raw := data
        health_explanation :=
          if (data.getField "health_explanation").isArray then
            data.getField "health_explanation" else .arr []
        all_ingredients :=
          if (data.getField "all_ingredients").isArray then
            data.getField "all_ingredients" else .arr []
        swaps :=
          if (data.getField "swaps").isArray then
            data.getField "swaps" else .arr []
        total_nutrition :=
          if (data.getField "total_nutrition").truthy then
            data.getField "total_nutrition" else .obj []
        health_goals_scores :=
          if (data.getField "health_goals_scores").truthy then
            data.getField "health_goals_scores" else .obj [] }

/-! ## The quick-check badge update (`background.js`)

`getQuickHealthScore` fetches `/extension/quick-check?url=...` with a
5-second abort timeout; only a response with `response.ok` and
`data.health_score > 0` leads to `setHealthScoreBadge`, every other
outcome (non-OK status, network failure, abort, JSON parse failure —
all caught) leaves the badge as it was. -/

/-- The parsed body of a quick-check response.  JavaScript numbers that
can reach `Math.round` are modelled as rationals. -/
structure QuickCheckData where
  health_score : Rat
  badge_color : String

/-- The possible outcomes of the quick-check fetch. -/
inductive QuickCheckOutcome
  | requestFailed
  | httpNotOk (status : Nat)
  | ok (data : QuickCheckData)

/-- The badge state of a tab: text and background color. -/
structure BadgeState where
  text : String
  color : String
  deriving DecidableEq, Repr

/-- JavaScript `Math.round`: round half-up towards `+∞`. -/
def jsMathRound (q : Rat) : Int :=
  Int.floor (q + 1/2)

/-- The color table of `setHealthScoreBadge` (background.js):
`colors[badgeColor] || '#667eea'`. -/
def badgeColorHex (badge_color : String) : String :=
  if badge_color = "green" then "#4CAF50"
  else if badge_color = "yellow" then "#FFC107"
  else if badge_color = "orange" then "#FF9800"
  else if badge_color = "red" then "#F44336"
  else "#667eea"

/-- The effect of one `getQuickHealthScore` call on a tab's badge:
`setHealthScoreBadge(tabId, score, color)` sets text
`Math.round(score).toString()` and the mapped background color exactly
when the response is OK and `health_score > 0`; otherwise the badge is
left unchanged. -/
def getQuickHealthScoreBadge (outcome : QuickCheckOutcome)
    (current : Option BadgeState) : Option BadgeState :=
  match outcome with
  | .ok d =>
      if d.health_score > 0 then
        some { text := toString (jsMathRound d.health_score)
               color := badgeColorHex d.badge_color }
      else current
  | _ => current

/-- The candidate a title selector contributes in `extractTitle`: the
trimmed text of its first matched element, provided that text is
non-empty. -/
def titleCandidate (doc : DomDoc) (sel : String) : Option String :=
  match (doc.queryAll sel).head? with
  | none => none
  | some element => if jsTrim element = "" then none else some (jsTrim element)

/-- A sample page: `.recipe-ingredient` matches nothing, `.ingredient`
matches two elements of which one survives filtering. -/
def samplePage : DomDoc :=
  { queryAll := fun sel => if sel = ".ingredient" then [" 2 uien ", ""] else []
    title := "Recept X" }

/-- A second sample page that agrees with `samplePage` on
`.recipe-ingredient` and `.ingredient` but has matches for a later
selector of the cascade. -/
def samplePageLaterDiffers : DomDoc :=
  { queryAll := fun sel =>
      if sel = ".ingredient" then [" 2 uien ", ""]
      else if sel = ".ingredient-item" then ["100 g kaas", "200 g bloem"]
      else []
    title := "" }

/-- A sample page whose first `h1` has only whitespace text while
`.recipe-title` carries the recipe title. -/
def sampleTitlePage : DomDoc :=
  { queryAll := fun sel =>
      if sel = "h1" then ["   "]
      else if sel = ".recipe-title" then [" Orzosalade met asperges "]
      else []
    title := "Silverfood" }

/-- A server response whose `total_nutrition` field is a (truthy)
number rather than an object. -/
def sampleBadResponse : Json :=
  .obj [("total_nutrition", .num 7)]

/-! ## Theorems -/

/-- C1 (counterexample).  The claim that every consumer-side
classification follows the ≥7 / 4–6 / <4 thresholds and that
`displayResults` and `displayAllIngredients` agree fails at health score
4: `displayResults` (boundaries `>= 7` / `>= 5`) classifies it
"unhealthy" while `displayAllIngredients` (boundaries `>= 7` / `>= 4`)
and the specified thresholds classify it "neutral". -/
theorem score4_classified_inconsistently :
    displayResultsHealthClass (some 4) = "unhealthy" ∧
    allIngredientsItemClass (some 4) = "neutral" ∧
    specHealthClass 4 = "neutral" ∧
    displayResultsHealthClass (some 4) ≠ allIngredientsItemClass (some 4) := by
  decide

/-- C1 (amended).  For every health score in [0,10]: the badge coloring
of `displayAllIngredients` follows the specified ≥7 / 4–6 / <4 thresholds
exactly (green/yellow/red matching healthy/neutral/unhealthy); the item
class of `displayAllIngredients` follows them for every nonzero score but
classifies 0 as "neutral" (the `|| 5` default); and `displayResults`
follows them only away from 4 and 0, classifying 4 as "unhealthy" and 0
as "neutral". -/
theorem health_classification_thresholds (s : Int) (h0 : 0 ≤ s) (h10 : s ≤ 10) :
    (allIngredientsBadgeColor (some s) =
      if specHealthClass s = "healthy" then "#28a745"
      else if specHealthClass s = "neutral" then "#ffc107"
      else "#dc3545") ∧
    (s ≠ 0 → allIngredientsItemClass (some s) = specHealthClass s) ∧
    allIngredientsItemClass (some 0) = "neutral" ∧
    (s ≠ 0 → s ≠ 4 → displayResultsHealthClass (some s) = specHealthClass s) ∧
    displayResultsHealthClass (some 4) = "unhealthy" ∧
    displayResultsHealthClass (some 0) = "neutral" := by
  interval_cases s <;> decide

/-- C1 (witness for `health_classification_thresholds`). -/
theorem health_classification_thresholds_witness :
    (0 ≤ (6 : Int) ∧ (6 : Int) ≤ 10 ∧ (6 : Int) ≠ 0) ∧
    allIngredientsItemClass (some 6) = specHealthClass 6 := by
  exact ⟨by decide, (health_classification_thresholds 6 (by decide) (by decide)).2.1 (by decide)⟩

/-- C3 (counterexample).  A pasted text whose trimmed length is 0 (hence
`< 20`) is rejected with error title "Geen tekst ingevuld", not
"Tekst te kort", so the claim's error for every trimmed length `< 20`
does not hold. -/
theorem empty_text_not_rejected_as_too_short :
    (jsTrim "   ").length < 20 ∧
    validateRecipeText "   " =
      .rejected "Voer eerst recept tekst in" "Geen tekst ingevuld" ∧
    ("Geen tekst ingevuld" : String) ≠ "Tekst te kort" := by
  decide

/-- C3 (amended).  A pasted text whose trimmed form is empty is rejected
with "Geen tekst ingevuld"; a non-empty trimmed text of length `< 20` is
rejected with "Tekst te kort"; in both cases `analyzeRecipe` returns
before any HTTP request is issued (the `rejected` outcome carries no
request).  Every text of trimmed length `≥ 20` passes validation and is
sent as the request payload. -/
theorem text_length_validation (raw : String) :
    (jsTrim raw = "" →
      validateRecipeText raw =
        .rejected "Voer eerst recept tekst in" "Geen tekst ingevuld") ∧
    (jsTrim raw ≠ "" → (jsTrim raw).length < 20 →
      validateRecipeText raw = .rejected textTooShortMessage "Tekst te kort") ∧
    (20 ≤ (jsTrim raw).length →
      validateRecipeText raw = .accepted (jsTrim raw)) := by
  refine ⟨fun h => by simp [validateRecipeText, h],
          fun h1 h2 => by simp [validateRecipeText, h1, h2],
          fun h => ?_⟩
  have h1 : jsTrim raw ≠ "" := by
    intro e
    rw [e] at h
    simp at h
  have h2 : ¬ (jsTrim raw).length < 20 := Nat.not_lt.mpr h
  simp [validateRecipeText, h1, h2]

/-- C3 (witness for `text_length_validation`). -/
theorem text_length_validation_witness :
    jsTrim "te kort" ≠ "" ∧ (jsTrim "te kort").length < 20 ∧
    validateRecipeText "te kort" = .rejected textTooShortMessage "Tekst te kort" := by
  exact ⟨by decide, by decide, (text_length_validation "te kort").2.1 (by decide) (by decide)⟩

/-- C4 (confirmed).  The URL branch of `analyzeRecipe` accepts (and hence
fetches `/analyse`) only when the trimmed URL starts with `http://` or
`https://`; every non-empty trimmed URL starting with neither is rejected
with the invalid-URL error before any request; and the popup issues the
`/chrome/analyze` request only for a tab URL starting with `http://` or
`https://`. -/
theorem url_scheme_validation (raw url : String) :
    (∀ u, validateRecipeUrl raw = .accepted u →
      jsStartsWith u "http://" = true ∨ jsStartsWith u "https://" = true) ∧
    (jsTrim raw ≠ "" →
      jsStartsWith (jsTrim raw) "http://" = false →
      jsStartsWith (jsTrim raw) "https://" = false →
      validateRecipeUrl raw = .rejected invalidUrlMessage "Ongeldige URL") ∧
    (popupAllowsAnalyze (some url) = true →
      jsStartsWith url "http://" = true ∨ jsStartsWith url "https://" = true) := by
  refine ⟨?_, ?_, ?_⟩
  · intro u hu
    unfold validateRecipeUrl at hu
    by_cases h1 : jsTrim raw = ""
    · simp [h1] at hu
    · by_cases hc : (!jsStartsWith (jsTrim raw) "http://" &&
          !jsStartsWith (jsTrim raw) "https://") = true
      · rw [if_neg h1, if_pos hc] at hu
        cases hu
      · rw [if_neg h1, if_neg hc] at hu
        injection hu with he
        subst he
        by_contra hno
        push_neg at hno
        obtain ⟨ha, hb⟩ := hno
        simp only [Bool.not_eq_true] at ha hb
        exact hc (by simp [ha, hb])
  · intro h1 h2 h3
    simp [validateRecipeUrl, h1, h2, h3]
  · intro h
    simp only [popupAllowsAnalyze, Bool.and_eq_true, Bool.or_eq_true, decide_eq_true_eq] at h
    exact h.2

/-- C4 (witness for `url_scheme_validation`). -/
theorem url_scheme_validation_witness :
    (jsTrim " ftp://voorbeeld.nl " ≠ "" ∧
      validateRecipeUrl " ftp://voorbeeld.nl " =
        .rejected invalidUrlMessage "Ongeldige URL") ∧
    (popupAllowsAnalyze (some "https://www.ah.nl/allerhande") = true ∧
      (jsStartsWith "https://www.ah.nl/allerhande" "http://" = true ∨
        jsStartsWith "https://www.ah.nl/allerhande" "https://" = true)) := by
  refine ⟨⟨by decide, ?_⟩, by decide, ?_⟩
  · exact (url_scheme_validation " ftp://voorbeeld.nl " "x").2.1
      (by decide) (by decide) (by decide)
  · exact (url_scheme_validation "x" "https://www.ah.nl/allerhande").2.2 (by decide)

/-- C6 (counterexample).  An ingredient whose `health_score` is present
and equal to 0 is displayed and classified with score 5, not with its own
score: `ingredient.health_score || 5` treats 0 as falsy.  The claim that
the displayed score equals the ingredient's own score whenever one is
present is therefore false. -/
theorem present_zero_score_displayed_as_default :
    displayedHealthScore (some 0) = 5 ∧ (5 : Int) ≠ 0 := by
  decide

/-- C6 (amended).  The score used for display and classification equals
the ingredient's own `health_score` whenever one is present and nonzero,
and equals the default 5 exactly when the score is absent or 0 (both
falsy for `||`).  Rendering is total: `displayAllIngredients` produces
one classified item per ingredient, so an unresolved ingredient cannot
abort the display of the analysis. -/
theorem displayed_score_default_rule (s : Int) (scores : List (Option Int)) :
    (s ≠ 0 → displayedHealthScore (some s) = s) ∧
    displayedHealthScore none = 5 ∧
    displayedHealthScore (some 0) = 5 ∧
    (displayAllIngredientsClasses scores).length = scores.length := by
  refine ⟨fun h => by simp [displayedHealthScore, jsOrScore, h], rfl, rfl, ?_⟩
  simp [displayAllIngredientsClasses]

/-- C6 (witness for `displayed_score_default_rule`). -/
theorem displayed_score_default_rule_witness :
    (3 : Int) ≠ 0 ∧ displayedHealthScore (some 3) = 3 := by
  exact ⟨by decide, (displayed_score_default_rule 3 []).1 (by decide)⟩

/-- Helper: the ingredient cascade yields `[]` when no selector has
surviving candidate lines. -/
theorem extractIngredientsGo_eq_nil (doc : DomDoc) :
    ∀ sels : List String,
      (∀ sel ∈ sels, surviving (doc.queryAll sel) = []) →
      extractIngredientsGo doc sels = []
  | [], _ => rfl
  | sel :: rest, h => by
      have hs : surviving (doc.queryAll sel) = [] := h sel (List.mem_cons_self _ _)
      have ih := extractIngredientsGo_eq_nil doc rest
        (fun x hx => h x (List.mem_cons_of_mem _ hx))
      by_cases he : 0 < (doc.queryAll sel).length
      · simp [extractIngredientsGo, he, hs, ih]
      · simp [extractIngredientsGo, he, ih]

/-- Helper: the ingredient cascade returns the surviving lines of the
first selector whose surviving-lines list is non-empty. -/
theorem extractIngredientsGo_first (doc : DomDoc) :
    ∀ (pre : List String) (sel : String) (post : List String),
      (∀ s ∈ pre, surviving (doc.queryAll s) = []) →
      surviving (doc.queryAll sel) ≠ [] →
      extractIngredientsGo doc (pre ++ sel :: post) = surviving (doc.queryAll sel)
  | [], sel, post, _, hsel => by
      have hne : doc.queryAll sel ≠ [] := by
        intro e
        apply hsel
        rw [e]
        rfl
      have hlen : 0 < (doc.queryAll sel).length := List.length_pos.mpr hne
      have hslen : 0 < (surviving (doc.queryAll sel)).length := List.length_pos.mpr hsel
      simp [extractIngredientsGo, hlen, hslen]
  | s :: pre, sel, post, hpre, hsel => by
      have hs : surviving (doc.queryAll s) = [] := hpre s (List.mem_cons_self _ _)
      have ih := extractIngredientsGo_first doc pre sel post
        (fun x hx => hpre x (List.mem_cons_of_mem _ hx)) hsel
      by_cases he : 0 < (doc.queryAll s).length
      · simp [extractIngredientsGo, he, hs, ih]
      · simp [extractIngredientsGo, he, ih]

/-- C2 (counterexample).  On a page where no selector of the cascade
matches anything, `handleExtractRecipe` responds with `success: true` and
an empty ingredient list, instead of failing with a no-ingredients
error: the claim that extraction never returns a successful result with
an empty ingredient list is false for the content script. -/
theorem no_ingredient_page_reports_success :
    (handleExtractRecipe emptyPage).success = true ∧
    (handleExtractRecipe emptyPage).data =
      some { title := "Recept", ingredients := [] } ∧
    (handleExtractRecipe emptyPage).error = none := by
  refine ⟨rfl, rfl, rfl⟩

/-- C2 (amended).  For every page on which no selector of the extraction
cascade yields any surviving candidate line, `extractIngredients` returns
the empty list and `handleExtractRecipe` returns a successful response
(`success: true`, no error) carrying that empty ingredient list; no
`NoIngredientsFound` failure exists in the content script. -/
theorem empty_extraction_reports_success (doc : DomDoc)
    (h : ∀ sel ∈ ingredientSelectors, surviving (doc.queryAll sel) = []) :
    handleExtractRecipe doc =
      { success := true
        data := some { title := extractTitle doc, ingredients := [] }
        error := none } := by
  unfold handleExtractRecipe extractRecipeFromPage extractIngredients
  rw [extractIngredientsGo_eq_nil doc ingredientSelectors h]

/-- C2 (witness for `empty_extraction_reports_success`). -/
theorem empty_extraction_reports_success_witness :
    handleExtractRecipe emptyPage =
      { success := true
        data := some { title := "Recept", ingredients := [] }
        error := none } := by
  rw [empty_extraction_reports_success emptyPage (fun _ _ => rfl)]
  rfl

/-- C5 (confirmed).  `extractIngredients` returns the trimmed-and-filtered
lines of the first selector in the fixed cascade whose filtered list is
non-empty (all earlier selectors having empty filtered lists), and the
result does not depend on what any later selector matches: a second page
agreeing with the first on the selectors up to and including the winning
one yields the same result, whatever its later selectors match. -/
theorem cascade_first_nonempty_selector_wins (doc doc' : DomDoc)
    (pre post : List String) (sel : String)
    (hdecomp : ingredientSelectors = pre ++ sel :: post)
    (hpre : ∀ s ∈ pre, surviving (doc.queryAll s) = [])
    (hsel : surviving (doc.queryAll sel) ≠ [])
    (hagree : ∀ s ∈ pre ++ [sel], doc'.queryAll s = doc.queryAll s) :
    extractIngredients doc = surviving (doc.queryAll sel) ∧
    extractIngredients doc' = surviving (doc.queryAll sel) := by
  have hpre' : ∀ s ∈ pre, surviving (doc'.queryAll s) = [] := fun s hs => by
    rw [hagree s (List.mem_append_left _ hs)]
    exact hpre s hs
  have hagsel : doc'.queryAll sel = doc.queryAll sel :=
    hagree sel (List.mem_append_right _ (List.mem_singleton.mpr rfl))
  have hsel' : surviving (doc'.queryAll sel) ≠ [] := by
    rw [hagsel]
    exact hsel
  constructor
  · unfold extractIngredients
    rw [hdecomp]
    exact extractIngredientsGo_first doc pre sel post hpre hsel
  · unfold extractIngredients
    rw [hdecomp, extractIngredientsGo_first doc' pre sel post hpre' hsel', hagsel]

/-- C5 (witness for `cascade_first_nonempty_selector_wins`). -/
theorem cascade_first_nonempty_selector_wins_witness :
    extractIngredients samplePage = ["2 uien"] ∧
    extractIngredients samplePageLaterDiffers = ["2 uien"] := by
  have h := cascade_first_nonempty_selector_wins samplePage samplePageLaterDiffers
    [".recipe-ingredient"]
    [".ingredients li", "[data-testid=\"ingredient\"]", "[data-ingredient]",
     ".ingredient-item", ".recipe-ingredients-list li",
     "ul[data-testid=\"ingredients\"] li", ".ingredients-section li",
     ".ah-ingredient", ".allerhande-ingredient"]
    ".ingredient" rfl (by decide) (by decide) (by decide)
  exact ⟨h.1.trans (by decide), h.2.trans (by decide)⟩

/-- Helper: one step of the title cascade, phrased with `titleCandidate`. -/
theorem extractTitleGo_cons (doc : DomDoc) (sel : String) (rest : List String) :
    extractTitleGo doc (sel :: rest) =
      match titleCandidate doc sel with
      | some t => t
      | none => extractTitleGo doc rest := by
  cases hq : (doc.queryAll sel).head? with
  | none => simp [extractTitleGo, titleCandidate, hq]
  | some element =>
      by_cases he : jsTrim element = ""
      · simp [extractTitleGo, titleCandidate, hq, he]
      · simp [extractTitleGo, titleCandidate, hq, he]

/-- Helper: the title cascade returns the candidate of the first selector
that has one. -/
theorem extractTitleGo_first (doc : DomDoc) :
    ∀ (pre : List String) (sel : String) (post : List String) (t : String),
      (∀ s ∈ pre, titleCandidate doc s = none) →
      titleCandidate doc sel = some t →
      extractTitleGo doc (pre ++ sel :: post) = t
  | [], sel, post, t, _, hsel => by
      rw [List.nil_append, extractTitleGo_cons, hsel]
  | s :: pre, sel, post, t, hpre, hsel => by
      have hs : titleCandidate doc s = none := hpre s (List.mem_cons_self _ _)
      rw [List.cons_append, extractTitleGo_cons, hs]
      exact extractTitleGo_first doc pre sel post t
        (fun x hx => hpre x (List.mem_cons_of_mem _ hx)) hsel

/-- Helper: when no title selector has a candidate, the cascade falls
through to `document.title || 'Recept'`. -/
theorem extractTitleGo_none (doc : DomDoc) :
    ∀ sels : List String,
      (∀ s ∈ sels, titleCandidate doc s = none) →
      extractTitleGo doc sels = (if doc.title = "" then "Recept" else doc.title)
  | [], _ => rfl
  | s :: rest, h => by
      rw [extractTitleGo_cons, h s (List.mem_cons_self _ _)]
      exact extractTitleGo_none doc rest
        (fun x hx => h x (List.mem_cons_of_mem _ hx))

/-- C8 (counterexample).  On a page where no title selector matches a
non-empty element and `document.title` is empty, `extractTitle` returns
the constant `'Recept'` (from `document.title || 'Recept'`), not the
page's document title: the claimed fallback to the document title does
not hold for an empty document title. -/
theorem empty_title_page_falls_back_to_constant :
    extractTitle emptyPage = "Recept" ∧
    emptyPage.title = "" ∧
    extractTitle emptyPage ≠ emptyPage.title := by
  refine ⟨rfl, rfl, by decide⟩

/-- C8 (amended).  `extractTitle` returns the trimmed text content of the
first selector in its fixed ordered cascade whose first matched element
has non-empty trimmed text; when no selector matches such an element it
falls back to the page's document title when that title is non-empty, and
to the constant `'Recept'` when the document title is empty. -/
theorem title_cascade_with_fallback (doc : DomDoc)
    (pre post : List String) (sel : String) (t : String) :
    (titleSelectors = pre ++ sel :: post →
      (∀ s ∈ pre, titleCandidate doc s = none) →
      titleCandidate doc sel = some t →
      extractTitle doc = t) ∧
    ((∀ s ∈ titleSelectors, titleCandidate doc s = none) →
      extractTitle doc = if doc.title = "" then "Recept" else doc.title) := by
  constructor
  · intro hdecomp hpre hsel
    unfold extractTitle
    rw [hdecomp]
    exact extractTitleGo_first doc pre sel post t hpre hsel
  · intro h
    exact extractTitleGo_none doc titleSelectors h

/-- C8 (witness for `title_cascade_with_fallback`). -/
theorem title_cascade_with_fallback_witness :
    extractTitle sampleTitlePage = "Orzosalade met asperges" ∧
    extractTitle emptyPage = "Recept" := by
  constructor
  · exact (title_cascade_with_fallback sampleTitlePage
      ["h1"] ["[data-testid=\"recipe-title\"]", ".title", "h1.recipe-header-title"]
      ".recipe-title" "Orzosalade met asperges").1 rfl (by decide) (by decide)
  · have h := (title_cascade_with_fallback emptyPage [] [] "x" "x").2
      (fun s _ => rfl)
    rw [h]
    rfl

/-- C7 (confirmed).  The error classifier of `analyzeRecipe` maps the
error message by substring tests in the fixed source order: connection
errors first, then unsupported site, rate limit, no ingredients,
temporary unavailability, blocked access; any other non-empty message is
shown verbatim (with the generic title), and an empty message yields the
preset default message. -/
theorem error_message_mapping (msg : String) :
    ((jsIncludes msg "Failed to fetch" || jsIncludes msg "NetworkError") = true →
      classifyAnalysisError msg = ⟨connectionErrorMessage, "Verbindingsfout"⟩) ∧
    ((jsIncludes msg "Failed to fetch" || jsIncludes msg "NetworkError") = false →
      jsIncludes msg "niet ondersteund" = true →
      classifyAnalysisError msg = ⟨unsupportedSiteMessage, "Website niet ondersteund"⟩) ∧
    ((jsIncludes msg "Failed to fetch" || jsIncludes msg "NetworkError") = false →
      jsIncludes msg "niet ondersteund" = false →
      jsIncludes msg "429" = true →
      classifyAnalysisError msg = ⟨rateLimitMessage, "Te druk"⟩) ∧
    ((jsIncludes msg "Failed to fetch" || jsIncludes msg "NetworkError") = false →
      jsIncludes msg "niet ondersteund" = false →
      jsIncludes msg "429" = false →
      (jsIncludes msg "geen ingrediënten" || jsIncludes msg "Geen ingrediënten") = true →
      classifyAnalysisError msg = ⟨noIngredientsFoundMessage, "Geen ingrediënten gevonden"⟩) ∧
    ((jsIncludes msg "Failed to fetch" || jsIncludes msg "NetworkError") = false →
      jsIncludes msg "niet ondersteund" = false →
      jsIncludes msg "429" = false →
      (jsIncludes msg "geen ingrediënten" || jsIncludes msg "Geen ingrediënten") = false →
      jsIncludes msg "tijdelijk niet beschikbaar" = true →
      classifyAnalysisError msg =
        ⟨temporarilyUnavailableMessage, "Service tijdelijk niet beschikbaar"⟩) ∧
    ((jsIncludes msg "Failed to fetch" || jsIncludes msg "NetworkError") = false →
      jsIncludes msg "niet ondersteund" = false →
      jsIncludes msg "429" = false →
      (jsIncludes msg "geen ingrediënten" || jsIncludes msg "Geen ingrediënten") = false →
      jsIncludes msg "tijdelijk niet beschikbaar" = false →
      (jsIncludes msg "geblokkeerd" || jsIncludes msg "403") = true →
      classifyAnalysisError msg = ⟨blockedAccessMessage, "Website blokkeert toegang"⟩) ∧
    ((jsIncludes msg "Failed to fetch" || jsIncludes msg "NetworkError") = false →
      jsIncludes msg "niet ondersteund" = false →
      jsIncludes msg "429" = false →
      (jsIncludes msg "geen ingrediënten" || jsIncludes msg "Geen ingrediënten") = false →
      jsIncludes msg "tijdelijk niet beschikbaar" = false →
      (jsIncludes msg "geblokkeerd" || jsIncludes msg "403") = false →
      msg ≠ "" →
      classifyAnalysisError msg = ⟨msg, "Fout bij analyseren"⟩) ∧
    ((jsIncludes msg "Failed to fetch" || jsIncludes msg "NetworkError") = false →
      jsIncludes msg "niet ondersteund" = false →
      jsIncludes msg "429" = false →
      (jsIncludes msg "geen ingrediënten" || jsIncludes msg "Geen ingrediënten") = false →
      jsIncludes msg "tijdelijk niet beschikbaar" = false →
      (jsIncludes msg "geblokkeerd" || jsIncludes msg "403") = false →
      msg = "" →
      classifyAnalysisError msg = ⟨defaultErrorMessage, "Fout bij analyseren"⟩) := by
  refine ⟨?_, ?_, ?_, ?_, ?_, ?_, ?_, ?_⟩ <;> intros <;> subst_vars <;>
    simp [classifyAnalysisError, *]

/-- C7 (witness for `error_message_mapping`). -/
theorem error_message_mapping_witness :
    jsIncludes "HTTP 429: Too Many Requests" "429" = true ∧
    classifyAnalysisError "HTTP 429: Too Many Requests" = ⟨rateLimitMessage, "Te druk"⟩ := by
  exact ⟨by decide,
    (error_message_mapping "HTTP 429: Too Many Requests").2.2.1
      (by decide) (by decide) (by decide)⟩

/-- C9 (counterexample).  Normalization keeps any truthy
`total_nutrition` value as-is (`data.total_nutrition || {}`), so a
response whose `total_nutrition` is the number 7 reaches `displayResults`
with `total_nutrition = 7`, which is not an object: the claim that
`total_nutrition` is always an object after normalization is false. -/
theorem truthy_nonobject_nutrition_passes_through :
    normalizeAnalysisResponse sampleBadResponse =
      .ok { raw := sampleBadResponse
            health_explanation := .arr []
            all_ingredients := .arr []
            swaps := .arr []
            total_nutrition := .num 7
            health_goals_scores := .obj [] } ∧
    Json.isObject (.num 7) = false := by
  exact ⟨rfl, rfl⟩

/-- Helper: `Array.isArray(f) ? f : []` is always an array. -/
theorem isArray_orEmpty (f : Json) :
    (if f.isArray = true then f else Json.arr []).isArray = true := by
  by_cases hf : f.isArray = true
  · rw [if_pos hf]
    exact hf
  · rw [if_neg hf]
    rfl

/-- C9 (amended).  When normalization succeeds, `health_explanation`,
`all_ingredients` and `swaps` are always arrays; `total_nutrition` and
`health_goals_scores` are replaced by `{}` exactly when the response's
field is falsy, while a truthy non-object value passes through unchanged,
so those two fields are not guaranteed to be objects.  A response that is
falsy or whose `typeof` is not `'object'` is rejected as an error — a
JSON array, however, passes this check and is accepted. -/
theorem response_normalization_rule (data : Json) (sd : SafeData) :
    (normalizeAnalysisResponse data = .ok sd →
      sd.health_explanation.isArray = true ∧
      sd.all_ingredients.isArray = true ∧
      sd.swaps.isArray = true ∧
      ((data.getField "total_nutrition").truthy = false →
        sd.total_nutrition = .obj []) ∧
      ((data.getField "total_nutrition").truthy = true →
        sd.total_nutrition = data.getField "total_nutrition") ∧
      ((data.getField "health_goals_scores").truthy = false →
        sd.health_goals_scores = .obj []) ∧
      ((data.getField "health_goals_scores").truthy = true →
        sd.health_goals_scores = data.getField "health_goals_scores")) ∧
    (data.truthy = false ∨ data.typeofIsObject = false →
      normalizeAnalysisResponse data = .error "Ongeldige response structuur van server.") ∧
    normalizeAnalysisResponse (Json.arr []) =
      .ok { raw := .arr []
            health_explanation := .arr []
            all_ingredients := .arr []
            swaps := .arr []
            total_nutrition := .obj []
            health_goals_scores := .obj [] } := by
  refine ⟨?_, ?_, rfl⟩
  · intro h
    unfold normalizeAnalysisResponse at h
    by_cases hg : (!data.truthy || !data.typeofIsObject) = true
    · rw [if_pos hg] at h
      cases h
    · rw [if_neg hg] at h
      injection h with hsd
      subst hsd
      exact ⟨isArray_orEmpty _, isArray_orEmpty _, isArray_orEmpty _,
        fun hf => by simp [hf], fun hf => by simp [hf],
        fun hf => by simp [hf], fun hf => by simp [hf]⟩
  · intro h
    rcases h with h | h <;> simp [normalizeAnalysisResponse, h]

/-- C9 (witness for `response_normalization_rule`). -/
theorem response_normalization_rule_witness :
    normalizeAnalysisResponse (Json.str "oops") =
      .error "Ongeldige response structuur van server." := by
  exact (response_normalization_rule (Json.str "oops")
    ⟨.null, .null, .null, .null, .null, .null⟩).2.1 (Or.inr rfl)

/-- C10 (confirmed).  One quick-check round changes the badge exactly
when the HTTP response is OK and the returned `health_score` is strictly
positive; a zero or negative score, a non-OK response, or a failed or
aborted request leaves the badge unchanged.  When the badge is set, its
text is `Math.round(health_score)` rendered as a string and its
background color is the fixed hex color for the `badge_color` values
green, yellow, orange and red, with default `#667eea` for any other
value. -/
theorem quick_check_badge_update (outcome : QuickCheckOutcome)
    (current : Option BadgeState) (d : QuickCheckData) (s : Nat) (c : String) :
    (outcome = .ok d → d.health_score > 0 →
      getQuickHealthScoreBadge outcome current =
        some { text := toString (jsMathRound d.health_score)
               color := badgeColorHex d.badge_color }) ∧
    (outcome = .ok d → ¬ d.health_score > 0 →
      getQuickHealthScoreBadge outcome current = current) ∧
    (outcome = .requestFailed → getQuickHealthScoreBadge outcome current = current) ∧
    (outcome = .httpNotOk s → getQuickHealthScoreBadge outcome current = current) ∧
    badgeColorHex "green" = "#4CAF50" ∧
    badgeColorHex "yellow" = "#FFC107" ∧
    badgeColorHex "orange" = "#FF9800" ∧
    badgeColorHex "red" = "#F44336" ∧
    (c ≠ "green" → c ≠ "yellow" → c ≠ "orange" → c ≠ "red" →
      badgeColorHex c = "#667eea") := by
  refine ⟨?_, ?_, ?_, ?_, rfl, rfl, rfl, rfl, ?_⟩
  · intro ho hs
    subst ho
    simp [getQuickHealthScoreBadge, hs]
  · intro ho hs
    subst ho
    simp [getQuickHealthScoreBadge, hs]
  · intro ho
    subst ho
    rfl
  · intro ho
    subst ho
    rfl
  · intro h1 h2 h3 h4
    simp [badgeColorHex, h1, h2, h3, h4]

/-- C10 (witness for `quick_check_badge_update`): a successful
quick-check with score 7.5 and color `green` sets badge text `"8"` on
background `#4CAF50`. -/
theorem quick_check_badge_update_witness :
    ((15 : Rat) / 2 > 0) ∧
    getQuickHealthScoreBadge
        (.ok { health_score := 15 / 2, badge_color := "green" }) none =
      some { text := "8", color := "#4CAF50" } := by
  have h := (quick_check_badge_update
    (.ok { health_score := 15 / 2, badge_color := "green" }) none
    { health_score := 15 / 2, badge_color := "green" } 0 "x").1 rfl (by norm_num)
  refine ⟨by norm_num, ?_⟩
  rw [h]
  have hr : jsMathRound ((15 : Rat) / 2) = 8 := by
    norm_num [jsMathRound]
  rw [hr]
  rfl
